import Mathlib

/-!
Verification of the micdrop graph evaluation engine (pipeline core).

The definitions below are shallow embeddings of the Python classes in
`src/micdrop/pipeline/` (`base.py`, `flow.py`, `collect.py`), the driver loop
in `src/micdrop/process/__init__.py` and the sink in `src/micdrop/sink/base.py`.
Stateful Python objects become explicit state records threaded through the
functions; Python exceptions become an `Except` result over an explicit
exception datatype.
-/

/-- Modelled from the spec: the exception taxonomy of §7 (Exhausted = Python
`StopIteration`, SkipRow, StopProcessing, HardError variants).  The module
`micdrop/exceptions.py` that declares `SkipRowException`,
`StopProcessingException` and `PipelineProcessingError` is referenced by the
sources but absent from `src/`, so the classes themselves are modelled here as
constructors of one exception datatype; the payload of `pipelineError` is the
formatted message string. -/
inductive PyExc where
  | skipRow
  | stopProcessing
  | stopIteration
  | keyboardInterrupt
  | pipelineError (msg : String)
  | keyError (key : String)
  | indexError (idx : Nat)
  | attributeError (attr : String)
  | typeError (msg : String)
  | valueError (msg : String)
  deriving DecidableEq, Repr

/-- Modelled from the spec: Python exception-class hierarchy for the classes
declared in the missing `micdrop/exceptions.py`.  A bare `except Exception`
catches every exception here except `KeyboardInterrupt` (which derives only
from `BaseException`); in particular `SkipRowException` and
`StopProcessingException` are ordinary `Exception` subclasses, which is what
`OnFail.__call__`'s explicit `isinstance` re-raise check presupposes. -/
def PyExc.isException : PyExc → Bool
  | .keyboardInterrupt => false
  | _ => true

/-- Test used by `OnFail.__call__`:
`isinstance(exception, (SkipRowException, StopProcessingException))`. -/
def PyExc.isControl : PyExc → Bool
  | .skipRow => true
  | .stopProcessing => true
  | _ => false

/-- Textual rendering `str(exception)` used when formatting
`PipelineProcessingError` messages. -/
def PyExc.message : PyExc → String
  | .skipRow => "SkipRowException"
  | .stopProcessing => "StopProcessingException"
  | .stopIteration => "StopIteration"
  | .keyboardInterrupt => "KeyboardInterrupt"
  | .pipelineError m => m
  | .keyError k => k
  | .indexError i => toString i
  | .attributeError a => a
  | .typeError m => m
  | .valueError m => m

/-! ## Generic idempotent advance (`PipelineItemBase.idempotent_next`)

`PipelineItemBase` stores the single most recent idempotency counter in
`_reset_idempotency`; `idempotent_next` returns immediately when the incoming
counter equals it and otherwise records the counter and runs `next()`.  Here
the node's side-effecting `next()` is represented by a counter of how many
times it has run. -/

/-- State of one pipeline node whose `next()` performs an observable side
effect: `resetIdempotency` is `_reset_idempotency`, `nextCount` counts the
executions of `next()`. -/
structure CounterNode where
  resetIdempotency : Option Nat
  nextCount : Nat
  deriving DecidableEq, Repr

/-- Translation of `PipelineItemBase.idempotent_next` (base.py lines 47-57)
for a node whose `next()` increments `nextCount`. -/
def counterIdempotentNext (t : Nat) (s : CounterNode) : CounterNode :=
  if s.resetIdempotency = some t then s
  else { resetIdempotency := some t, nextCount := s.nextCount + 1 }

/-! ## The diamond graph of claim C1

Source `S` feeds transforms `A` and `B` (both `PipelineItem`s whose `_prev`
is `S`); a `CollectList` `C` holds two puts, one over `A` and one over `B`;
a sink-side `Put` sits downstream of `C`.  `S.next()` is side effecting and
is counted.  Fields named `xLast` are the `_reset_idempotency` slot of node
`x`; `aCached`/`bCached` are the `_is_cached` flag of the transforms;
`cListCached` records whether `CollectList._list` currently holds a list. -/
structure DiamondState where
  sLast : Option Nat
  sNextCount : Nat
  aLast : Option Nat
  aCached : Bool
  bLast : Option Nat
  bCached : Bool
  cLast : Option Nat
  cListCached : Bool
  p1Last : Option Nat
  p2Last : Option Nat
  sinkPutLast : Option Nat
  deriving DecidableEq, Repr

/-- `S.idempotent_next`: `PipelineItemBase.idempotent_next` where `S.next()`
increments the side-effect counter. -/
def sIdem (t : Nat) (s : DiamondState) : DiamondState :=
  if s.sLast = some t then s
  else { s with sLast := some t, sNextCount := s.sNextCount + 1 }

/-- `A.idempotent_next`: `Put.idempotent_next` (base.py lines 261-263)
propagates to `_prev = S` first, then runs the base guard; `A.next()` is
`PipelineItem.next` which clears the cache. -/
def aIdem (t : Nat) (s : DiamondState) : DiamondState :=
  let s := sIdem t s
  if s.aLast = some t then s
  else { s with aLast := some t, aCached := false }

/-- `B.idempotent_next`, same shape as `A` with `_prev = S`. -/
def bIdem (t : Nat) (s : DiamondState) : DiamondState :=
  let s := sIdem t s
  if s.bLast = some t then s
  else { s with bLast := some t, bCached := false }

/-- First collect put (`A >> Put()`): `Put.idempotent_next` propagates to `A`
then runs the base guard (its own `next()` is a no-op `pass`). -/
def p1Idem (t : Nat) (s : DiamondState) : DiamondState :=
  let s := aIdem t s
  if s.p1Last = some t then s else { s with p1Last := some t }

/-- Second collect put (`B >> Put()`). -/
def p2Idem (t : Nat) (s : DiamondState) : DiamondState :=
  let s := bIdem t s
  if s.p2Last = some t then s else { s with p2Last := some t }

/-- `CollectList.idempotent_next` (collect.py lines 94-97): base guard first
(`CollectList.next` drops `_list`), then `idempotent_next` on every put. -/
def cIdem (t : Nat) (s : DiamondState) : DiamondState :=
  let s :=
    if s.cLast = some t then s
    else { s with cLast := some t, cListCached := false }
  let s := p1Idem t s
  p2Idem t s

/-- A sink-side `Put` whose `_prev` is the collector `C`:
`Put.idempotent_next` propagates to `C` first, then runs the base guard. -/
def sinkPutIdem (t : Nat) (s : DiamondState) : DiamondState :=
  let s := cIdem t s
  if s.sinkPutLast = some t then s else { s with sinkPutLast := some t }

lemma sIdem_sLast (t : Nat) (s : DiamondState) : (sIdem t s).sLast = some t := by
  unfold sIdem
  split
  · assumption
  · rfl

lemma sIdem_count_of_seen (t : Nat) (s : DiamondState) (h : s.sLast = some t) :
    (sIdem t s).sNextCount = s.sNextCount := by
  unfold sIdem
  simp [h]

lemma sIdem_count_of_fresh (t : Nat) (s : DiamondState) (h : s.sLast ≠ some t) :
    (sIdem t s).sNextCount = s.sNextCount + 1 := by
  unfold sIdem
  simp [h]

lemma aIdem_sLast (t : Nat) (s : DiamondState) : (aIdem t s).sLast = some t := by
  unfold aIdem
  dsimp only
  split
  · exact sIdem_sLast t s
  · simp [sIdem_sLast t s]

lemma aIdem_count (t : Nat) (s : DiamondState) :
    (aIdem t s).sNextCount = (sIdem t s).sNextCount := by
  unfold aIdem
  dsimp only
  split
  · rfl
  · rfl

lemma bIdem_count (t : Nat) (s : DiamondState) :
    (bIdem t s).sNextCount = (sIdem t s).sNextCount := by
  unfold bIdem
  dsimp only
  split
  · rfl
  · rfl

lemma bIdem_sLast (t : Nat) (s : DiamondState) : (bIdem t s).sLast = some t := by
  unfold bIdem
  dsimp only
  split
  · exact sIdem_sLast t s
  · simp [sIdem_sLast t s]

lemma p1Idem_count (t : Nat) (s : DiamondState) :
    (p1Idem t s).sNextCount = (sIdem t s).sNextCount := by
  unfold p1Idem
  dsimp only
  split
  · exact aIdem_count t s
  · exact aIdem_count t s

lemma p1Idem_sLast (t : Nat) (s : DiamondState) : (p1Idem t s).sLast = some t := by
  unfold p1Idem
  dsimp only
  split
  · exact aIdem_sLast t s
  · simp [aIdem_sLast t s]

lemma p2Idem_count (t : Nat) (s : DiamondState) :
    (p2Idem t s).sNextCount = (sIdem t s).sNextCount := by
  unfold p2Idem
  dsimp only
  split
  · exact bIdem_count t s
  · exact bIdem_count t s

lemma cIdem_count_fresh (t : Nat) (s : DiamondState) (h : s.sLast ≠ some t) :
    (cIdem t s).sNextCount = s.sNextCount + 1 := by
  unfold cIdem
  set s1 := if s.cLast = some t then s else { s with cLast := some t, cListCached := false } with hs1
  have h1 : s1.sLast = s.sLast := by
    rw [hs1]; split <;> rfl
  have h1c : s1.sNextCount = s.sNextCount := by
    rw [hs1]; split <;> rfl
  rw [p2Idem_count, sIdem_count_of_seen, p1Idem_count, sIdem_count_of_fresh, h1c]
  · rw [h1]; exact h
  · exact p1Idem_sLast t s1

/-- C1: advancing the collector with a fresh token advances the shared source
exactly once. -/
theorem c1_diamond_fanin_advances_source_once (t : Nat) (s : DiamondState)
    (h : s.sLast ≠ some t) :
    (cIdem t s).sNextCount = s.sNextCount + 1 ∧
    (sinkPutIdem t s).sNextCount = s.sNextCount + 1 := by
  refine ⟨cIdem_count_fresh t s h, ?_⟩
  unfold sinkPutIdem
  dsimp only
  split
  · exact cIdem_count_fresh t s h
  · exact cIdem_count_fresh t s h

/-- Witness for C1 at a concrete fresh state and token. -/
theorem c1_diamond_fanin_witness :
    (cIdem 1 ⟨none, 0, none, true, none, true, none, true, none, none, none⟩).sNextCount = 0 + 1 ∧
    (sinkPutIdem 1 ⟨none, 0, none, true, none, true, none, true, none, none, none⟩).sNextCount
      = 0 + 1 :=
  c1_diamond_fanin_advances_source_once 1
    ⟨none, 0, none, true, none, true, none, true, none, none, none⟩ (by decide)

/-! ## Claim C2: repeat tokens

`PipelineItemBase._reset_idempotency` remembers only the most recent counter,
so a token that was seen earlier but displaced by a different token triggers
`next()` again. -/

/-- Counterexample to C2: for the call sequence
`idempotent_next(1); idempotent_next(2); idempotent_next(1)` starting from a
fresh node, `next()` runs three times, not the twice the claim states —
the node only remembers the most recent token, so the third call with the
already-seen token 1 is not a no-op. -/
theorem c2_counterexample_reseen_token_runs_next_again :
    (counterIdempotentNext 1 (counterIdempotentNext 2
      (counterIdempotentNext 1 ⟨none, 0⟩))).nextCount = 3 ∧
    ¬ (counterIdempotentNext 1 (counterIdempotentNext 2
      (counterIdempotentNext 1 ⟨none, 0⟩))).nextCount = 2 := by
  decide

/-- C2 (amended): the side-effecting `next()` runs at most once per token
only while that token remains the most recent one; a repeat call of
`idempotent_next` with the token of the immediately preceding call is a
no-op, and in particular two consecutive calls with the same token have the
same observable effect as one call. -/
theorem c2_consecutive_same_token_idempotent (t : Nat) (s : CounterNode) :
    counterIdempotentNext t (counterIdempotentNext t s) = counterIdempotentNext t s ∧
    (counterIdempotentNext t (counterIdempotentNext t s)).nextCount ≤ s.nextCount + 1 := by
  unfold counterIdempotentNext
  by_cases h : s.resetIdempotency = some t
  · simp [h]
  · simp [h]

/-! ## Claim C3: `Branch` case selection (flow.py lines 104-238)

`Branch` owns positional puts (`_args`), named puts (`_kwargs`) and a list of
`(condition, case)` pairs (`_cases`, one entry per `check` call, identified
here by its index).  `Branch.get(case)` resolves the selected case once per
row from the condition pipeline's value and returns the real put values to
the selected case and `None` placeholders to every other case.  Pulling a put
is observed in a pull counter per put. -/

structure BranchState (α β : Type) where
  conds : List (α → Bool)
  prevValue : α
  putVals : List β
  putPulls : List Nat
  kwVals : List (String × β)
  kwPulls : List Nat
  currentCase : Option Nat
  cached : Bool

/-- Index of the first condition in `_cases` matching the value, mirroring
the `for condition, condition_case in self._cases` loop with `break`. -/
def firstMatch {α : Type} (conds : List (α → Bool)) (v : α) : Option Nat :=
  match conds with
  | [] => none
  | c :: rest => if c v then some 0 else (firstMatch rest v).map (· + 1)

/-- The `if not self._cached` prologue of `Branch.get`: pull the condition
value and resolve `_current_case` to the first matching case; when no
condition matches, the loop assigns nothing and `_current_case` keeps its
value. -/
def branchResolve {α β : Type} (s : BranchState α β) : BranchState α β :=
  if s.cached then s
  else
    { s with
      currentCase :=
        match firstMatch s.conds s.prevValue with
        | some i => some i
        | none => s.currentCase,
      cached := true }

/-- Translation of `Branch.get(case)` (flow.py lines 136-153) observed from
case `caseId`: the selected case receives `[put.guarded_get() ...]` (real
values, counted as pulls), every other case receives `None` placeholders
without any pull. -/
def branchGet {α β : Type} (caseId : Nat) (s : BranchState α β) :
    BranchState α β × (List (Option β) × List (String × Option β)) :=
  let s := branchResolve s
  if s.currentCase = some caseId then
    ({ s with putPulls := s.putPulls.map (· + 1), kwPulls := s.kwPulls.map (· + 1) },
     (s.putVals.map some, s.kwVals.map fun kv => (kv.1, some kv.2)))
  else
    (s, (s.putVals.map fun _ => (none : Option β),
         s.kwVals.map fun kv => (kv.1, (none : Option β))))

/-- C3 (amended): at the start of a row (cache clear, no case selected), if
at least one predicate matches the condition value then the first matching
case — and only it — observes the real put values; every other case observes
`None` placeholders, and a non-selected case's read performs no `get` on the
put sources (pull counters unchanged).  When no predicate matches, no case
observes the real values (this is the amendment: the original "exactly one
case for every input value" fails in that situation). -/
theorem c3_branch_case_exclusivity {α β : Type} (s : BranchState α β) (i : Nat)
    (hc : s.cached = false) (_hcc : s.currentCase = none)
    (hm : firstMatch s.conds s.prevValue = some i) :
    (branchGet i s).2 = (s.putVals.map some, s.kwVals.map fun kv => (kv.1, some kv.2)) ∧
    (∀ j, j ≠ i →
      (branchGet j s).2 = (s.putVals.map fun _ => none,
                           s.kwVals.map fun kv => (kv.1, none))) ∧
    (∀ j, j ≠ i →
      (branchGet j s).1.putPulls = s.putPulls ∧ (branchGet j s).1.kwPulls = s.kwPulls) ∧
    (∀ j, (branchGet j s).1.currentCase = some i) := by
  have hres : branchResolve s = { s with currentCase := some i, cached := true } := by
    unfold branchResolve
    rw [hc, hm]
    simp
  refine ⟨?_, ?_, ?_, ?_⟩
  · unfold branchGet
    rw [hres]
    simp
  · intro j hj
    unfold branchGet
    rw [hres]
    simp only
    rw [if_neg (by simpa using fun h => hj h.symm)]
  · intro j hj
    unfold branchGet
    rw [hres]
    simp only
    rw [if_neg (by simpa using fun h => hj h.symm)]
    exact ⟨rfl, rfl⟩
  · intro j
    unfold branchGet
    rw [hres]
    dsimp only
    split <;> rfl

/-- Concrete branch used by the C3 witness: condition value `1`, cases
`v == 1` (index 0) and a fallback (index 1), one positional put valued `10`
and one named put `k = 7`. -/
def c3SampleState : BranchState Int Int :=
  { conds := [fun v => v == 1, fun _ => true]
    prevValue := 1
    putVals := [10]
    putPulls := [0]
    kwVals := [("k", 7)]
    kwPulls := [0]
    currentCase := none
    cached := false }

/-- Witness for C3 at `c3SampleState`: case 0 is selected and observes the
real values; case 1 observes placeholders without pulling the put sources. -/
theorem c3_branch_case_exclusivity_witness :
    (branchGet 0 c3SampleState).2 = ([some 10], [("k", some 7)]) ∧
    (branchGet 1 c3SampleState).2 = ([none], [("k", none)]) ∧
    (branchGet 1 c3SampleState).1.putPulls = [0] := by
  have h := c3_branch_case_exclusivity c3SampleState 0 rfl rfl (by decide)
  exact ⟨by simpa using h.1, by simpa using h.2.1 1 (by decide),
         (h.2.2.1 1 (by decide)).1⟩

/-- Branch with the single case `v == 0` observing the condition value `1`:
no predicate matches. -/
def c3NoMatchState : BranchState Int Int :=
  { conds := [fun v => v == 0]
    prevValue := 1
    putVals := [42]
    putPulls := [0]
    kwVals := []
    kwPulls := []
    currentCase := none
    cached := false }

/-- Counterexample to C3 as stated: for the input value `1` and the single
case `v == 0`, that case's consumers observe the `None` placeholder, so no
case at all observes the real put values — not "exactly one case" as the
claim requires for every input value. -/
theorem c3_counterexample_no_matching_predicate :
    (branchGet 0 c3NoMatchState).2.1 = [none] ∧
    ¬ (branchGet 0 c3NoMatchState).2.1 = [some 42] := by
  decide

/-! ## Claim C5: `Choose` (flow.py lines 18-102)

`Choose._branches` is a list of `(condition, put)` pairs; `process` returns
the first matching put's value and `None` when nothing matches.  The branch
put's current value stands in for `put.guarded_get()`. -/

/-- Translation of `Choose.process` (flow.py lines 49-53). -/
def chooseProcess {α β : Type} (branches : List ((α → Bool) × β)) (v : α) : Option β :=
  match branches with
  | [] => none
  | (c, pv) :: rest => if c v then some pv else chooseProcess rest v

lemma chooseProcess_eq_find {α β : Type} (branches : List ((α → Bool) × β)) (v : α) :
    chooseProcess branches v = (branches.find? fun bc => bc.1 v).map Prod.snd := by
  induction branches with
  | nil => rfl
  | cons hd tl ih =>
    obtain ⟨c, pv⟩ := hd
    unfold chooseProcess
    by_cases h : c v
    · rw [List.find?_cons_of_pos _ (by simpa using h)]
      simp [h]
    · rw [List.find?_cons_of_neg _ (by simpa using h)]
      simp [h, ih]

/-- The branches of the C5 scenario over the Python value domain
`Option Int` (the condition pipeline's value before any advance is `None`):
`v == 6` chooses `"six"`, `v > 6` chooses `"big"`, the fallback declared last
chooses `"small"`. -/
def c5Branches : List ((Option Int → Bool) × String) :=
  [(fun v => v == some 6, "six"),
   (fun v => match v with | some x => decide (6 < x) | none => false, "big"),
   (fun _ => true, "small")]

/-- Driver-side state for the scenario: an `IterableSource` over the origin
rows feeding a `Choose` (a `PipelineItem` with `_value`/`_is_cached`). -/
structure ChooseRunState where
  srcRemaining : List Int
  srcValue : Option Int
  srcLast : Option Nat
  chLast : Option Nat
  chCached : Bool
  chValue : Option String

/-- `IterableSource.idempotent_next`: base guard, then `next` pulls the next
row or raises `StopIteration` (loose.py lines 86-107). -/
def c5SrcIdem (t : Nat) (s : ChooseRunState) : Except PyExc ChooseRunState :=
  if s.srcLast = some t then .ok s
  else
    match s.srcRemaining with
    | [] => .error .stopIteration
    | x :: rest => .ok { s with srcLast := some t, srcRemaining := rest, srcValue := some x }

/-- `Choose.idempotent_next` (flow.py lines 55-58): propagate to `_prev`
(the origin source), run the base guard clearing the cache, then advance the
branch puts (whose upstreams are static values with no observable state). -/
def c5ChooseIdem (t : Nat) (s : ChooseRunState) : Except PyExc ChooseRunState := do
  let s ← c5SrcIdem t s
  pure (if s.chLast = some t then s
        else { s with chLast := some t, chCached := false, chValue := none })

/-- `PipelineItem.get` for the `Choose` node: compute
`process(prev.guarded_get())` once per row and cache it. -/
def c5ChooseGet (s : ChooseRunState) : ChooseRunState × Option String :=
  if s.chCached then (s, s.chValue)
  else
    let v := chooseProcess c5Branches s.srcValue
    ({ s with chValue := v, chCached := true }, v)

/-- The driver loop of `process` (process/__init__.py lines 17-46) applied to
the `Choose`: increment the counter, advance, get, stop on exhaustion. -/
def c5Run : Nat → Nat → ChooseRunState → List (Option String) → List (Option String)
  | 0, _, _, acc => acc
  | fuel + 1, t, s, acc =>
    match c5ChooseIdem t s with
    | .error _ => acc
    | .ok s1 =>
      let (s2, v) := c5ChooseGet s1
      c5Run fuel (t + 1) s2 (acc ++ [v])

/-- C5: `Choose` returns the value of the first branch in declaration order
whose predicate accepts the condition value (`None` when no predicate
matches), and the end-to-end scenario over origin rows `[6, 1, 9]` with
cases `v == 6 → "six"`, `v > 6 → "big"` and fallback `"small"` yields
exactly `["six", "small", "big"]`. -/
theorem c5_choose_first_match_and_scenario :
    (∀ (α β : Type) (branches : List ((α → Bool) × β)) (v : α),
        chooseProcess branches v = (branches.find? fun bc => bc.1 v).map Prod.snd) ∧
    c5Run 4 1 ⟨[6, 1, 9], none, none, none, false, none⟩ []
      = [some "six", some "small", some "big"] :=
  ⟨fun _ _ => chooseProcess_eq_find, by decide⟩

/-! ## Claims C7 and C10: `OnFail` policy and `Take`/`TakeAttr`
(base.py lines 11-33, 395-444)

`OnFail.__call__` turns a caught lookup failure into the configured outcome;
`Take.get`/`TakeAttr.get` forward an upstream `None` untouched and route a
missing key/attribute through the policy.  `logged` records whether
`logger.error` ran; `.ok ()` models the handler returning (Python `return`,
i.e. `None`). -/

inductive OnFail where
  | fail
  | stop
  | skip
  | ignore
  | log_and_skip
  | log_and_ignore
  deriving DecidableEq, Repr

/-- Translation of `OnFail.__call__` (base.py lines 19-30): control-flow
exceptions are re-raised first, the two logging policies log, then the
policy decides between `SkipRowException`, `StopProcessingException`,
returning, or re-raising the original exception. -/
def onFailCall (policy : OnFail) (e : PyExc) : Bool × Except PyExc Unit :=
  if e.isControl then (false, .error e)
  else
    let logged := policy = OnFail.log_and_ignore ∨ policy = OnFail.log_and_skip
    if policy = OnFail.skip ∨ policy = OnFail.log_and_skip then (decide logged, .error .skipRow)
    else if policy = OnFail.stop then (decide logged, .error .stopProcessing)
    else if policy = OnFail.ignore ∨ policy = OnFail.log_and_ignore then (decide logged, .ok ())
    else (decide logged, .error e)

/-- Observable events of one `Take.get` call. -/
inductive TakeEvent where
  | lookupAttempt
  | policyCall
  deriving DecidableEq, Repr

/-- Translation of `Take.get` (base.py lines 410-419) over an association
list container: an upstream `None` returns `None` immediately; otherwise the
`value[self.key]` lookup either succeeds or raises `KeyError`, which is
handed to the `on_not_found` policy (falling off the function's end returns
`None` when the policy returns). -/
def takeGet {γ : Type} (container : Option (List (String × γ))) (key : String)
    (onNotFound : OnFail) : List TakeEvent × Bool × Except PyExc (Option γ) :=
  match container with
  | none => ([], false, .ok none)
  | some d =>
    match d.lookup key with
    | some v => ([.lookupAttempt], false, .ok (some v))
    | none =>
      let (logged, r) := onFailCall onNotFound (.keyError key)
      ([.lookupAttempt, .policyCall], logged,
       match r with
       | .ok _ => .ok none
       | .error x => .error x)

/-- Translation of `TakeAttr.get` (base.py lines 434-441): as `Take.get` but
via `getattr`, raising `AttributeError`. -/
def takeAttrGet {γ : Type} (container : Option (List (String × γ))) (key : String)
    (onNotFound : OnFail) : List TakeEvent × Bool × Except PyExc (Option γ) :=
  match container with
  | none => ([], false, .ok none)
  | some d =>
    match d.lookup key with
    | some v => ([.lookupAttempt], false, .ok (some v))
    | none =>
      let (logged, r) := onFailCall onNotFound (.attributeError key)
      ([.lookupAttempt, .policyCall], logged,
       match r with
       | .ok _ => .ok none
       | .error x => .error x)

/-- C7: each `OnFail` policy applied to a missing-key lookup in `Take` yields
exactly its documented outcome: `fail` re-raises the original `KeyError`,
`stop` raises StopProcessing, `skip` raises SkipRow, `ignore` returns `None`
without raising, `log_and_skip` logs then raises SkipRow, and
`log_and_ignore` logs then returns `None`. -/
theorem c7_onfail_policy_outcomes {γ : Type} (d : List (String × γ)) (key : String)
    (h : d.lookup key = none) :
    takeGet (some d) key OnFail.fail
      = ([.lookupAttempt, .policyCall], false, .error (.keyError key)) ∧
    takeGet (some d) key OnFail.stop
      = ([.lookupAttempt, .policyCall], false, .error .stopProcessing) ∧
    takeGet (some d) key OnFail.skip
      = ([.lookupAttempt, .policyCall], false, .error .skipRow) ∧
    takeGet (some d) key OnFail.ignore
      = ([.lookupAttempt, .policyCall], false, .ok none) ∧
    takeGet (some d) key OnFail.log_and_skip
      = ([.lookupAttempt, .policyCall], true, .error .skipRow) ∧
    takeGet (some d) key OnFail.log_and_ignore
      = ([.lookupAttempt, .policyCall], true, .ok none) := by
  refine ⟨?_, ?_, ?_, ?_, ?_, ?_⟩ <;>
    simp [takeGet, onFailCall, h, PyExc.isControl]

/-- Witness for C7 on the concrete empty container and key `"k"`. -/
theorem c7_onfail_policy_outcomes_witness :
    takeGet (some ([] : List (String × Nat))) "k" OnFail.fail
      = ([.lookupAttempt, .policyCall], false, .error (.keyError "k")) ∧
    takeGet (some ([] : List (String × Nat))) "k" OnFail.stop
      = ([.lookupAttempt, .policyCall], false, .error .stopProcessing) ∧
    takeGet (some ([] : List (String × Nat))) "k" OnFail.skip
      = ([.lookupAttempt, .policyCall], false, .error .skipRow) ∧
    takeGet (some ([] : List (String × Nat))) "k" OnFail.ignore
      = ([.lookupAttempt, .policyCall], false, .ok none) ∧
    takeGet (some ([] : List (String × Nat))) "k" OnFail.log_and_skip
      = ([.lookupAttempt, .policyCall], true, .error .skipRow) ∧
    takeGet (some ([] : List (String × Nat))) "k" OnFail.log_and_ignore
      = ([.lookupAttempt, .policyCall], true, .ok none) :=
  c7_onfail_policy_outcomes [] "k" rfl

/-- C10: when the upstream value is `None`, `Take.get` and `TakeAttr.get`
return `None` immediately for every `on_not_found` policy — no lookup is
attempted, the policy is never invoked and nothing is logged. -/
theorem c10_take_on_none_container (γ : Type) (key : String) (policy : OnFail) :
    takeGet (γ := γ) none key policy = ([], false, .ok none) ∧
    takeAttrGet (γ := γ) none key policy = ([], false, .ok none) :=
  ⟨rfl, rfl⟩

/-! ## Claim C8: exception propagation (base.py lines 76-95 and 526-545)

`guarded_get` re-raises `StopIteration`, `SkipRowException`,
`StopProcessingException`, `KeyboardInterrupt` and `PipelineProcessingError`
and wraps everything else into a `PipelineProcessingError` whose message
carries the chain repr of the failing node.  `FailGuard.get` catches any
`Exception` from the upstream `get` (default `catch=None`) and hands it to
the `OnFail` handler. -/

/-- Translation of `PipelineItemBase.guarded_get` (base.py lines 76-95) over
the outcome of the wrapped `get`; `chainRepr` is
`self.repr_for_pipeline_error()` without the enclosing backticks. -/
def guardedGet {γ : Type} (r : Except PyExc γ) (chainRepr : String) : Except PyExc γ :=
  match r with
  | .ok v => .ok v
  | .error .stopIteration => .error .stopIteration
  | .error .skipRow => .error .skipRow
  | .error .stopProcessing => .error .stopProcessing
  | .error .keyboardInterrupt => .error .keyboardInterrupt
  | .error (.pipelineError m) => .error (.pipelineError m)
  | .error e =>
      .error (.pipelineError ("Error in pipeline `" ++ chainRepr ++ "`: " ++ e.message))

/-- Translation of `FailGuard.get` (base.py lines 534-545) with the default
`catch=None` and an `OnFail` handler, applied to the upstream `get` result
of an uncached guard.  Returns `(logged, cachedAfter, result)`: a bare
`except Exception` does not catch `KeyboardInterrupt`, and `_is_cached` is
only set when no exception escapes. -/
def failGuardGet {γ : Type} (prevResult : Except PyExc (Option γ)) (handler : OnFail) :
    Bool × Bool × Except PyExc (Option γ) :=
  match prevResult with
  | .ok v => (false, true, .ok v)
  | .error e =>
    if e.isException then
      let (logged, r) := onFailCall handler e
      match r with
      | .ok _ => (logged, true, .ok none)
      | .error x => (logged, false, .error x)
    else (false, false, .error e)

/-- C8 (amended): `SkipRowException` and `StopProcessingException` pass
through `guarded_get` unmodified, and every `OnFail` handler inside a
`FailGuard` re-raises them without logging and without converting them into
a cached value; every other exception raised by a node's `get` — except
`StopIteration`, `KeyboardInterrupt` and an already-wrapped
`PipelineProcessingError`, which are re-raised unmodified (this exclusion is
the amendment) — is wrapped into a `PipelineProcessingError` carrying the
chain repr of the failing node. -/
theorem c8_control_signals_pass_through (γ : Type) :
    (∀ r : String, guardedGet (γ := γ) (.error .skipRow) r = .error .skipRow ∧
        guardedGet (γ := γ) (.error .stopProcessing) r = .error .stopProcessing) ∧
    (∀ handler : OnFail,
        failGuardGet (γ := γ) (.error .skipRow) handler = (false, false, .error .skipRow) ∧
        failGuardGet (γ := γ) (.error .stopProcessing) handler
          = (false, false, .error .stopProcessing)) ∧
    (∀ (e : PyExc) (r : String), e ≠ .skipRow → e ≠ .stopProcessing → e ≠ .stopIteration →
        e ≠ .keyboardInterrupt → (∀ m, e ≠ .pipelineError m) →
        guardedGet (γ := γ) (.error e) r
          = .error (.pipelineError ("Error in pipeline `" ++ r ++ "`: " ++ e.message))) := by
  refine ⟨fun r => ⟨rfl, rfl⟩, fun handler => ⟨rfl, rfl⟩, ?_⟩
  intro e r h1 h2 h3 h4 h5
  cases e <;> simp_all [guardedGet]

/-- Witness for C8: the theorem applied to the control signals and to the
concrete wrappable exception `KeyError("k")`. -/
theorem c8_control_signals_pass_through_witness :
    guardedGet (γ := Nat) (.error .skipRow) "node" = .error .skipRow ∧
    failGuardGet (γ := Nat) (.error .skipRow) OnFail.ignore = (false, false, .error .skipRow) ∧
    guardedGet (γ := Nat) (.error (.keyError "k")) "node"
      = .error (.pipelineError "Error in pipeline `node`: k") :=
  ⟨((c8_control_signals_pass_through Nat).1 "node").1,
   ((c8_control_signals_pass_through Nat).2.1 OnFail.ignore).1,
   (c8_control_signals_pass_through Nat).2.2 (.keyError "k") "node"
     (by decide) (by decide) (by decide) (by decide) (fun m => by simp)⟩

/-- Counterexample to C8 as stated: `StopIteration` is an exception other
than SkipRow/StopProcessing that a node's `get` raises (it is the normal
exhaustion signal), yet `guarded_get` re-raises it unmodified instead of
wrapping it into a `PipelineProcessingError`. -/
theorem c8_counterexample_stopiteration_not_wrapped :
    guardedGet (γ := Nat) (.error .stopIteration) "node" = .error .stopIteration ∧
    ¬ ∃ m, guardedGet (γ := Nat) (.error .stopIteration) "node"
        = .error (.pipelineError m) := by
  refine ⟨rfl, ?_⟩
  rintro ⟨m, hm⟩
  simp [guardedGet] at hm

/-! ## Claim C6: `Coalesce` (flow.py lines 329-371)

`Coalesce.get` returns the first non-null put value, caching per row;
`Coalesce` does *not* override `idempotent_next`, so it inherits
`PipelineItemBase.idempotent_next`, which only records the token and runs
`Coalesce.next` (clearing the cache) — unlike every other collector it never
propagates the advance to its puts' upstream pipelines. -/

/-- The read loop of `Coalesce.get` over the values the puts would return:
first non-`None` value, else `None` (the `for ... else` arm). -/
def coalesceFirstNonNull {γ : Type} (vals : List (Option γ)) : Option γ :=
  match vals with
  | [] => none
  | v :: rest =>
    match v with
    | some x => some x
    | none => coalesceFirstNonNull rest

lemma coalesceFirstNonNull_eq_findSome {γ : Type} (vals : List (Option γ)) :
    coalesceFirstNonNull vals = vals.findSome? id := by
  induction vals with
  | nil => rfl
  | cons v rest ih =>
    cases v <;> simp [coalesceFirstNonNull, List.findSome?, ih]

/-- A `Coalesce` with a single put endpoint whose upstream is
`IterableSource([1, 2])`: the source's `_value`, `_reset_idempotency` and a
count of its `next()` runs, plus the coalesce's `_value`/`_cached`/token. -/
structure CoalesceState where
  srcRemaining : List Int
  srcValue : Option Int
  srcLast : Option Nat
  srcAdvCount : Nat
  coValue : Option Int
  coCached : Bool
  coLast : Option Nat
  deriving DecidableEq, Repr

/-- The `idempotent_next` a `Coalesce` actually has: the inherited
`PipelineItemBase.idempotent_next` guard running `Coalesce.next`
(flow.py lines 352-354), which touches no endpoint. -/
def coalesceIdem (t : Nat) (s : CoalesceState) : CoalesceState :=
  if s.coLast = some t then s
  else { s with coLast := some t, coValue := none, coCached := false }

/-- `Coalesce.get` (flow.py lines 338-350) over the single put: pull the
put's value (`IterableSource.get`, which merely reads `_value`), keep it when
non-null, else fall through to the `for ... else` null arm; cache. -/
def coalesceGet (s : CoalesceState) : CoalesceState × Option Int :=
  if s.coCached then (s, s.coValue)
  else
    let v := coalesceFirstNonNull [s.srcValue]
    ({ s with coValue := v, coCached := true }, v)

/-- Driver ticks over the coalesce (advance with a fresh counter, then
get), as `process` would do. -/
def c6Run : Nat → Nat → CoalesceState → List (Option Int) →
    List (Option Int) × CoalesceState
  | 0, _, s, acc => (acc, s)
  | fuel + 1, t, s, acc =>
    let s1 := coalesceIdem t s
    let (s2, v) := coalesceGet s1
    c6Run fuel (t + 1) s2 (acc ++ [v])

/-- C6 failing input evaluated: driving `Coalesce(IterableSource([1, 2]))`
for two rows never advances the endpoint's upstream source (its `next()`
runs zero times and both rows are still pending), so `get` yields `None`
twice instead of the rows' values — advancing the `Coalesce` does not
propagate to the endpoints' upstream pipelines as the claim requires. -/
theorem c6_endpoints_not_advanced_at_failing_input :
    (c6Run 2 1 ⟨[1, 2], none, none, 0, none, false, none⟩ []).1 = [none, none] ∧
    (c6Run 2 1 ⟨[1, 2], none, none, 0, none, false, none⟩ []).2.srcAdvCount = 0 ∧
    (c6Run 2 1 ⟨[1, 2], none, none, 0, none, false, none⟩ []).2.srcRemaining = [1, 2] := by
  decide

/-! ## Claim C4: `Flatten` (flow.py lines 256-327)

The modelled pipeline is the documented usage

  `source.take('items') >> Flatten(id = source.take('id'))` with
  `flat.passthru.take('id') >> sink.put('ref_id')` and
  `flat >> sink.put('flag')`.

Upstream rows are `(collection, passthruValue)` pairs; each pulled row
receives a fresh object identity tag (a `Nat`), since Python's
`value is self._current_collection` check compares object identity and every
pulled row carries fresh `dict`/`list` objects.  `Take` does not cache (it
overrides `get`), so both takes re-read the source's current row on every
pull.  `_current_collection` is `Option (Nat × List α)` (`none` = Python
`None`), `_current_collection_iter` is `Option (List α)` (`none` = the
initial Python `None`, `some rest` = a live iterator with `rest` remaining —
an exhausted iterator is `some []`). -/

structure FlatState (α β : Type) where
  srcRemaining : List (Option (List α) × β)
  srcRow : Option (Nat × Option (List α) × β)
  srcNextId : Nat
  srcLast : Option Nat
  flCurrent : Option (Nat × List α)
  flIter : Option (List α)
  flLast : Option Nat
  flCached : Bool
  flVal : Option α
  ptLast : Option Nat
  deriving DecidableEq, Repr

/-- Python object identity `value is other` for the collection value:
`None is None` is true, two list objects are identical exactly when they are
the same pulled object (same tag). -/
def isSameObject {α : Type} : Option (Nat × List α) → Option (Nat × List α) → Bool
  | none, none => true
  | some (i, _), some (j, _) => i == j
  | _, _ => false

/-- `IterableSource.idempotent_next` for the origin: record the token, then
`next` pulls the next row (with a fresh identity tag) or raises
`StopIteration`. -/
def flSrcIdem {α β : Type} (t : Nat) (s : FlatState α β) : Except PyExc (FlatState α β) :=
  if s.srcLast = some t then .ok s
  else
    match s.srcRemaining with
    | [] => .error .stopIteration
    | r :: rest =>
      .ok { s with srcLast := some t, srcRemaining := rest,
                   srcRow := some (s.srcNextId, r), srcNextId := s.srcNextId + 1 }

/-- `source.take('items').get`: re-reads the source's current row (Take has
no cache) and extracts the collection object, `none` for a Python `None`. -/
def tkColGet {α β : Type} (s : FlatState α β) : Option (Nat × List α) :=
  match s.srcRow with
  | none => none
  | some (i, col, _) =>
    match col with
    | none => none
    | some l => some (i, l)

/-- `source.take('id').get` under the passthru: re-reads the source's
current row and extracts the passthrough field. -/
def tkPassGet {α β : Type} (s : FlatState α β) : Option β :=
  match s.srcRow with
  | none => none
  | some (_, _, b) => some b

/-- The base idempotency guard on the `Flatten` node itself
(`PipelineItem.next` clears `_value`/`_is_cached`). -/
def flGuard {α β : Type} (t : Nat) (s : FlatState α β) : FlatState α β :=
  if s.flLast = some t then s
  else { s with flLast := some t, flCached := false, flVal := none }

/-- The base idempotency guard on the `FlattenPassthru` collector (its
`next` is a no-op). -/
def ptGuard {α β : Type} (t : Nat) (s : FlatState α β) : FlatState α β :=
  if s.ptLast = some t then s else { s with ptLast := some t }

/-- Translation of `Flatten.idempotent_next` (flow.py lines 294-302): while
no collection is in progress, propagate the advance upstream
(`super().idempotent_next`, reaching the shared source through the take) and
backpropagate through the passthru's puts (reaching the same source again,
where the token guard makes it a no-op); while draining, run only this
node's own guard so the upstream row stays put. -/
def flattenIdem {α β : Type} (t : Nat) (s : FlatState α β) : Except PyExc (FlatState α β) :=
  match s.flCurrent with
  | none => do
    let s ← flSrcIdem t s
    let s := flGuard t s
    let s := ptGuard t s
    let s ← flSrcIdem t s
    pure s
  | some _ => pure (flGuard t s)

/-- `next(self._current_collection_iter)` with the surrounding
`try`/`except StopIteration` of `Flatten.process`: a `None` iterator (never
replaced since construction) raises `TypeError`; an exhausted iterator
raises `StopIteration`, which resets `_current_collection` and skips the
row; otherwise the next element is yielded. -/
def flattenIterNext {α β : Type} (s : FlatState α β) : FlatState α β × Except PyExc α :=
  match s.flIter with
  | none => (s, .error (.typeError "NoneType object is not iterable"))
  | some [] => ({ s with flCurrent := none }, .error .skipRow)
  | some (x :: rest) => ({ s with flIter := some rest }, .ok x)

/-- Translation of `Flatten.process` (flow.py lines 304-317). -/
def flattenProcess {α β : Type} (value : Option (Nat × List α)) (s : FlatState α β) :
    FlatState α β × Except PyExc α :=
  if isSameObject value s.flCurrent then flattenIterNext s
  else
    match value with
    | none => ({ s with flCurrent := none }, .error .skipRow)
    | some (i, l) => flattenIterNext { s with flCurrent := some (i, l), flIter := some l }

/-- `PipelineItem.get` on the `Flatten`: return the cached value or run
`process(self._prev.guarded_get())` and cache the result (`process` never
returns `None`, so a set cache always holds a value). -/
def flattenGet {α β : Type} (s : FlatState α β) : FlatState α β × Except PyExc α :=
  match s.flCached, s.flVal with
  | true, some v => (s, .ok v)
  | _, _ =>
    match flattenProcess (tkColGet s) s with
    | (s1, .ok a) => ({ s1 with flCached := true, flVal := some a }, .ok a)
    | (s1, .error e) => (s1, .error e)

/-- `Sink.idempotent_next` over the two puts, in the documented order: the
passthru put (reaching only the `FlattenPassthru`'s own guard) and the
flatten put. -/
def c4SinkIdem {α β : Type} (t : Nat) (s : FlatState α β) : Except PyExc (FlatState α β) := do
  let s := ptGuard t s
  flattenIdem t s

/-- `Sink.get`: the passthru put's value and the flatten put's value; the
flatten put wraps its pull in `guarded_get`, so a non-control exception from
`Flatten` is wrapped into a `PipelineProcessingError`. -/
def c4SinkGet {α β : Type} (s : FlatState α β) :
    FlatState α β × Except PyExc (Option β × α) :=
  let pv := tkPassGet s
  let (s1, r) := flattenGet s
  match guardedGet r "Flatten()" with
  | .ok a => (s1, .ok (pv, a))
  | .error e => (s1, .error e)

inductive C4Outcome (α β : Type) where
  | finished (outs : List (Option β × α))
  | aborted (outs : List (Option β × α)) (e : PyExc)
  | outOfFuel (outs : List (Option β × α))
  deriving DecidableEq, Repr

/-- The driver loop of `process` over this sink: advance then get, skip on
`SkipRowException`, finish on `StopIteration`/`StopProcessingException`,
abort on any other exception (no `on_error` handler). -/
def c4Run {α β : Type} : Nat → Nat → FlatState α β → List (Option β × α) → C4Outcome α β
  | 0, _, _, acc => .outOfFuel acc
  | fuel + 1, t, s, acc =>
    match c4SinkIdem t s with
    | .error .stopIteration => .finished acc
    | .error .stopProcessing => .finished acc
    | .error .skipRow => c4Run fuel (t + 1) s acc
    | .error e => .aborted acc e
    | .ok s1 =>
      match c4SinkGet s1 with
      | (s2, .ok out) => c4Run fuel (t + 1) s2 (acc ++ [out])
      | (s2, .error .skipRow) => c4Run fuel (t + 1) s2 acc
      | (_, .error .stopIteration) => .finished acc
      | (_, .error .stopProcessing) => .finished acc
      | (_, .error e) => .aborted acc e

/-- Fresh pipeline state over the given origin rows. -/
def c4Init {α β : Type} (rows : List (Option (List α) × β)) : FlatState α β :=
  { srcRemaining := rows, srcRow := none, srcNextId := 0, srcLast := none,
    flCurrent := none, flIter := none, flLast := none, flCached := false,
    flVal := none, ptLast := none }

/-- Supporting fact for C4: a row whose collection is `[a, b, c]` produces
exactly three downstream rows across three successive ticks, carrying
`a`, `b`, `c` in order, with the passthru value identical on all three. -/
lemma c4_three_element_row (a b c p : Nat) :
    c4Run 5 1 (c4Init [(some [a, b, c], p)]) []
      = .finished [(some p, a), (some p, b), (some p, c)] := rfl

/-- Supporting fact for C4: an empty collection produces zero downstream
rows (never one row with an absent value). -/
lemma c4_empty_row (p : Nat) :
    c4Run 2 1 (c4Init [((some [] : Option (List Nat)), p)]) [] = .finished [] := rfl

/-- Supporting fact for C4: a `None` collection that is *not* the first
pulled row produces zero downstream rows and the upstream is re-pulled on
the next tick (the stale exhausted iterator happens to raise
`StopIteration`, which `process` converts into `SkipRowException`). -/
lemma c4_none_row_after_nonempty (a c p q r : Nat) :
    c4Run 6 1 (c4Init [(some [a], p), (none, q), (some [c], r)]) []
      = .finished [(some p, a), (some r, c)] := rfl

/-- C4 failing input evaluated: when the very first pulled row carries a
`None` collection, the dead `value is None` branch of `Flatten.process` is
skipped (`None is self._current_collection` already holds), so
`next(self._current_collection_iter)` runs with the initial `None` iterator
and raises `TypeError`, which the downstream put wraps into a
`PipelineProcessingError` that aborts the run — instead of the
`SkipRowException` and zero rows the claim requires. -/
theorem c4_first_row_none_aborts :
    c4Run 2 1 (c4Init [((none : Option (List Nat)), (0 : Nat))]) []
      = .aborted []
          (.pipelineError "Error in pipeline `Flatten()`: NoneType object is not iterable")
      := rfl

/-! ## Claim C9: open/close lifecycle (base.py lines 97-143,
sink/base.py lines 6-68, process/__init__.py lines 17-46)

`process(sink)` enters `with sink.opened:`; the `opened` context manager is a
`@contextmanager` generator `open(); yield self; close()` with no
`try`/`finally`, so the `close()` after the yield only runs when the with
body exits normally.  `Sink` inherits `Put.open`, which opens `self._prev`
only and never the puts in `Sink._puts`, so the put pipelines are never
opened.  The modelled pipeline is
`IterableSource([...]) >> Call(boom) >> sink.put('x')` where `boom` raises
`ValueError("boom")`. -/

structure LifeState where
  srcRemaining : List Int
  srcValue : Option Int
  srcLast : Option Nat
  srcOpen : Bool
  srcCompleted : Option Nat
  trOpen : Bool
  trCached : Bool
  trVal : Option Int
  trLast : Option Nat
  putOpen : Bool
  sinkOpen : Bool
  deriving DecidableEq, Repr

/-- Fresh, unopened pipeline over the given origin rows
(`Source._progress_completed` starts as `None`). -/
def lifeInit (rows : List Int) : LifeState :=
  { srcRemaining := rows, srcValue := none, srcLast := none, srcOpen := false,
    srcCompleted := none, trOpen := false, trCached := false, trVal := none,
    trLast := none, putOpen := false, sinkOpen := false }

/-- `sink.open()` as `Sink` actually inherits it: `Put.open` marks the sink
open and would open `self._prev` (there is none); the puts in `Sink._puts`
and everything upstream of them are not opened. -/
def lifeOpen (s : LifeState) : LifeState :=
  { s with sinkOpen := true }

/-- `sink.close()` via `Put.close`: marks the sink closed; again the puts
are not touched. -/
def lifeClose (s : LifeState) : LifeState :=
  { s with sinkOpen := false }

/-- `IterableSource.idempotent_next`: token guard, then pull the next row or
raise `StopIteration`. -/
def lifeSrcIdem (t : Nat) (s : LifeState) : Except PyExc LifeState :=
  if s.srcLast = some t then .ok s
  else
    match s.srcRemaining with
    | [] => .error .stopIteration
    | x :: rest =>
      .ok { s with srcLast := some t, srcRemaining := rest, srcValue := some x }

/-- `Sink.idempotent_next`: `idempotent_next` on the single put, which
propagates through the `Call` transform to the source and clears the
transform's cache. -/
def lifeSinkIdem (t : Nat) (s : LifeState) : Except PyExc LifeState := do
  let s ← lifeSrcIdem t s
  pure (if s.trLast = some t then s
        else { s with trLast := some t, trCached := false, trVal := none })

/-- `PipelineItem.get` on the `Call(boom)` transform: `process` raises
`ValueError("boom")`, so the cache is never set. -/
def lifeTrGet (s : LifeState) : LifeState × Except PyExc Int :=
  match s.trCached, s.trVal with
  | true, some v => (s, .ok v)
  | _, _ => (s, .error (.valueError "boom"))

/-- `Sink.get`: pulls the put, whose `get` is `self._prev.guarded_get()` —
the transform's exception is wrapped into a `PipelineProcessingError`. -/
def lifeSinkGet (s : LifeState) : LifeState × Except PyExc (List (String × Option Int)) :=
  let (s1, r) := lifeTrGet s
  match guardedGet r "Call(boom)" with
  | .ok v => (s1, .ok [("x", some v)])
  | .error e => (s1, .error e)

inductive LifeOutcome where
  | finished
  | aborted (e : PyExc)
  | outOfFuel
  deriving DecidableEq, Repr

/-- The body of `process(sink)` inside `with sink.opened:` (no `on_error`):
on `StopIteration`/`StopProcessingException` the loop breaks, the with body
ends normally and `close()` runs; an uncaught exception propagates through
the yield of the generator-based context manager, whose code after the
yield — the `close()` — never executes. -/
def lifeLoop : Nat → Nat → LifeState → LifeOutcome × LifeState
  | 0, _, s => (.outOfFuel, s)
  | fuel + 1, t, s =>
    match lifeSinkIdem t s with
    | .error .stopIteration => (.finished, lifeClose s)
    | .error .stopProcessing => (.finished, lifeClose s)
    | .error .skipRow => lifeLoop fuel (t + 1) s
    | .error e => (.aborted e, s)
    | .ok s1 =>
      match lifeSinkGet s1 with
      | (s2, .ok _) => lifeLoop fuel (t + 1) s2
      | (s2, .error .skipRow) => lifeLoop fuel (t + 1) s2
      | (s2, .error .stopIteration) => (.finished, lifeClose s2)
      | (s2, .error .stopProcessing) => (.finished, lifeClose s2)
      | (s2, .error e) => (.aborted e, s2)

/-- `process(sink)` end to end: open, loop, close only on the normal exit
path. -/
def lifeProcess (rows : List Int) (fuel : Nat) : LifeOutcome × LifeState :=
  lifeLoop fuel 1 (lifeOpen (lifeInit rows))

/-- C9 failing input evaluated: before the first tick `open()` has reached
neither the put, the transform, nor the source (only the sink itself); when
the transform's hard error propagates out of the loop the run aborts with
the wrapped error and the sink is left open (`close()` is skipped because
`opened` has no `try`/`finally`); only on the normal exhaustion path is the
sink closed. -/
theorem c9_open_close_not_on_all_paths :
    (lifeOpen (lifeInit [1])).srcOpen = false ∧
    (lifeOpen (lifeInit [1])).trOpen = false ∧
    (lifeOpen (lifeInit [1])).putOpen = false ∧
    (lifeOpen (lifeInit [1])).srcCompleted = none ∧
    (lifeProcess [1] 2).1 = .aborted (.pipelineError "Error in pipeline `Call(boom)`: boom") ∧
    (lifeProcess [1] 2).2.sinkOpen = true ∧
    (lifeProcess [] 1).1 = .finished ∧
    (lifeProcess [] 1).2.sinkOpen = false := by
  decide
